import Mathlib

/-!
Verification development for the FHIR repository analyzer.

The Python sources are shallowly embedded: JSON-like Python values become the
inductive type `PyVal`, Python exceptions become `Except PyError`, and each
`FHIRParser` / `FHIRAnalyzer` / ETL / search function of interest becomes a
Lean function with the same name (snake case preserved where Lean allows it).
-/

namespace FhirSpec

/-- A Python value as manipulated by the analyzer: `None`, booleans, integers,
strings, lists and string-keyed dicts (the shapes occurring in parsed FHIR
JSON and in the analyzer's own records). -/
inductive PyVal where
  | none : PyVal
  | bool (b : Bool) : PyVal
  | int (n : Int) : PyVal
  | str (s : String) : PyVal
  | list (xs : List PyVal) : PyVal
  | dict (kvs : List (String × PyVal)) : PyVal

instance : Inhabited PyVal := ⟨.none⟩

/-- Python exception kinds raised by the embedded code. -/
inductive PyError where
  | attributeError (msg : String) : PyError
  | typeError (msg : String) : PyError
  | valueError (msg : String) : PyError
  | indexError (msg : String) : PyError
  | keyError (key : String) : PyError
  | unboundLocal (name : String) : PyError
  | tableMissing (table : String) : PyError
deriving Repr, DecidableEq, Inhabited

namespace PyVal

/-- Python truthiness (`bool(v)`). -/
def truthy : PyVal → Bool
  | .none => false
  | .bool b => b
  | .int n => n ≠ 0
  | .str s => s ≠ ""
  | .list xs => ¬ xs.isEmpty
  | .dict kvs => ¬ kvs.isEmpty

/-- `isinstance(v, dict)`. -/
def isDict : PyVal → Bool
  | .dict _ => true
  | _ => false

/-- `isinstance(v, list)`. -/
def isList : PyVal → Bool
  | .list _ => true
  | _ => false

/-- Key lookup in a dict body (first binding wins, as Python dicts have
unique keys). -/
def lookup (kvs : List (String × PyVal)) (k : String) : Option PyVal :=
  match kvs with
  | [] => Option.none
  | (k', v) :: rest => if k' = k then some v else lookup rest k

/-- `d.get(k, default)` on a value already known to be a dict. -/
def dGetD : PyVal → String → PyVal → PyVal
  | .dict kvs, k, dflt => (lookup kvs k).getD dflt
  | _, _, dflt => dflt

/-- `d.get(k)` on a value already known to be a dict (default `None`). -/
def dGet (v : PyVal) (k : String) : PyVal :=
  dGetD v k .none

/-- `v.get(k)` on an arbitrary value: raises `AttributeError` when `v` is not
a dict, exactly as Python does. -/
def pyGetE (v : PyVal) (k : String) : Except PyError PyVal :=
  match v with
  | .dict kvs => .ok ((lookup kvs k).getD .none)
  | _ => .error (.attributeError ("object has no attribute get: " ++ k))

/-- `k in d` for dict bodies. -/
def hasKey (kvs : List (String × PyVal)) (k : String) : Bool :=
  (lookup kvs k).isSome

end PyVal

open PyVal

mutual

/-- Python `repr(v)` (as used inside `str` of containers). String escaping is
not modelled beyond quoting, which is enough for the values the analyzer
builds. -/
def pyRepr : PyVal → String
  | .none => "None"
  | .bool b => if b then "True" else "False"
  | .int n => toString n
  | .str s => "'" ++ s ++ "'"
  | .list xs => "[" ++ pyReprList xs ++ "]"
  | .dict kvs => "\x7b" ++ pyReprDict kvs ++ "\x7d"

def pyReprList : List PyVal → String
  | [] => ""
  | [x] => pyRepr x
  | x :: rest => pyRepr x ++ ", " ++ pyReprList rest

def pyReprDict : List (String × PyVal) → String
  | [] => ""
  | [(k, v)] => "'" ++ k ++ "': " ++ pyRepr v
  | (k, v) :: rest => "'" ++ k ++ "': " ++ pyRepr v ++ ", " ++ pyReprDict rest

end

/-- Python `str(v)`: like `repr` except that strings print unquoted. -/
def pyStr : PyVal → String
  | .str s => s
  | v => pyRepr v

/-- Embeds `FHIRParser.extract_codeable_concept`'s scan of the `coding`
array: the first dict entry whose `display` is truthy yields its display,
else whose `code` is truthy yields its code; other entries are skipped. -/
def codingScan : List PyVal → Option PyVal
  | [] => Option.none
  | c :: rest =>
    match c with
    | .dict _ =>
      let display := dGet c "display"
      if display.truthy then some display
      else
        let code := dGet c "code"
        if code.truthy then some code
        else codingScan rest
    | _ => codingScan rest

/-- The `coding` array is scanned only when it is a list (`isinstance`
guard in the source). -/
def codingScanTop : PyVal → Option PyVal
  | .list xs => codingScan xs
  | _ => Option.none

/-- Embeds `FHIRParser.extract_codeable_concept` (fhir_parser.py:30-65). -/
def extract_codeable_concept (cc : PyVal) (prefer_text : Bool := true) : PyVal :=
  if ¬ cc.truthy ∨ ¬ cc.isDict then .none
  else
    let text := dGet cc "text"
    if prefer_text ∧ text.truthy then text
    else
      let codings := dGetD cc "coding" (.list [])
      match codingScanTop codings with
      | some v => v
      | Option.none =>
        if ¬ prefer_text ∧ text.truthy then text else .none

mutual

/-- Python `==` restricted to the value shapes of this model. (The embedded
code only ever compares against string literals, where Python's numeric
cross-type equalities play no role.) -/
def pyEqB : PyVal → PyVal → Bool
  | .none, .none => true
  | .bool a, .bool b => a = b
  | .int a, .int b => a = b
  | .str a, .str b => a = b
  | .list a, .list b => pyEqListB a b
  | .dict a, .dict b => pyEqDictB a b
  | _, _ => false

def pyEqListB : List PyVal → List PyVal → Bool
  | [], [] => true
  | a :: as, b :: bs => pyEqB a b ∧ pyEqListB as bs
  | _, _ => false

def pyEqDictB : List (String × PyVal) → List (String × PyVal) → Bool
  | [], [] => true
  | (ka, va) :: as, (kb, vb) :: bs => ka = kb ∧ pyEqB va vb ∧ pyEqDictB as bs
  | _, _ => false

end

def isPrefixList : List Char → List Char → Bool
  | [], _ => true
  | _ :: _, [] => false
  | a :: as, b :: bs => a = b && isPrefixList as bs

def containsSubAux (needle : List Char) : List Char → Bool
  | [] => needle.isEmpty
  | c :: rest => isPrefixList needle (c :: rest) || containsSubAux needle rest

/-- Substring test for Python's `needle in haystack` on strings; the empty
needle is always contained. -/
def strContains (hay needle : String) : Bool :=
  needle.isEmpty || containsSubAux needle.data hay.data

/-- Splits a character list at every occurrence of `c` (the pieces do not
contain `c`). -/
def splitOnCharAux : List Char → Char → List (List Char)
  | [], _ => [[]]
  | x :: rest, c =>
    let r := splitOnCharAux rest c
    if x = c then [] :: r
    else
      match r with
      | h :: t => (x :: h) :: t
      | [] => [[x]]

/-- Numeric value of a digit string. -/
def digitsVal (cs : List Char) : Nat :=
  cs.foldl (fun acc c => acc * 10 + (c.toNat - 48)) 0

/-- Replaces every (non-overlapping, left-to-right) occurrence of `pat` by
`repl`, with explicit fuel so that the recursion is structural. -/
def replaceCharsAux (pat repl : List Char) : Nat → List Char → List Char
  | 0, cs => cs
  | _, [] => []
  | fuel + 1, x :: rest =>
    if isPrefixList pat (x :: rest) ∧ ¬ pat.isEmpty then
      repl ++ replaceCharsAux pat repl fuel (List.drop (pat.length - 1) rest)
    else x :: replaceCharsAux pat repl fuel rest

/-- Python `s.replace(pat, repl)` for a non-empty pattern. -/
def strReplace (s pat repl : String) : String :=
  String.mk (replaceCharsAux pat.data repl.data s.data.length s.data)

/-- Python `s.strip()`: removes leading and trailing whitespace. -/
def pyStrip (s : String) : String :=
  String.mk (((s.data.dropWhile Char.isWhitespace).reverse.dropWhile Char.isWhitespace).reverse)

/-- Joins strings with a separator. -/
def joinBy (sep : String) : List String → String
  | [] => ""
  | [x] => x
  | x :: rest => x ++ sep ++ joinBy sep rest

/-- Python `a or b` (returns the first operand when truthy, else the second). -/
def pyOr (a b : PyVal) : PyVal :=
  if a.truthy then a else b

/-- Python `needle in container`: key membership for dicts, element equality
for lists, substring for strings; `TypeError` otherwise. -/
def pyContains (needle container : PyVal) : Except PyError Bool :=
  match container with
  | .dict kvs =>
    match needle with
    | .str s => .ok (hasKey kvs s)
    | _ => .ok false
  | .list xs => .ok (xs.any (pyEqB needle))
  | .str s =>
    match needle with
    | .str n => .ok (strContains s n)
    | _ => .error (.typeError "in <string> requires string as left operand")
  | _ => .error (.typeError "argument is not iterable")

/-- Python `container[key]` for a string key. -/
def pySubscriptStr (v : PyVal) (k : String) : Except PyError PyVal :=
  match v with
  | .dict kvs =>
    match lookup kvs k with
    | some x => .ok x
    | Option.none => .error (.keyError k)
  | .str _ => .error (.typeError "string indices must be integers")
  | .list _ => .error (.typeError "list indices must be integers")
  | _ => .error (.typeError "object is not subscriptable")

/-- Python `container[0]`. -/
def pyIndexZero (v : PyVal) : Except PyError PyVal :=
  match v with
  | .list [] => .error (.indexError "list index out of range")
  | .list (x :: _) => .ok x
  | .str s =>
    match s.data with
    | [] => .error (.indexError "string index out of range")
    | c :: _ => .ok (.str (String.mk [c]))
  | .dict _ => .error (.keyError "0")
  | _ => .error (.typeError "object is not subscriptable")

/-- Result record of `FHIRParser.extract_quantity`. -/
structure Quantity where
  value : PyVal
  unit : PyVal
  system : PyVal
  code : PyVal
  comparator : PyVal

/-- Embeds `FHIRParser.extract_quantity` (fhir_parser.py:312-336). -/
def extract_quantity (q : PyVal) : Quantity :=
  if ¬ q.truthy ∨ ¬ q.isDict then ⟨.none, .none, .none, .none, .none⟩
  else ⟨dGet q "value", dGet q "unit", dGet q "system", dGet q "code", dGet q "comparator"⟩

/-- Result record of `FHIRParser.extract_period`. -/
structure PeriodParts where
  startVal : PyVal
  endVal : PyVal

/-- Embeds `FHIRParser.extract_period` (fhir_parser.py:339-357). -/
def extract_period (p : PyVal) : PeriodParts :=
  if ¬ p.truthy ∨ ¬ p.isDict then ⟨.none, .none⟩
  else ⟨dGet p "start", dGet p "end"⟩

/-- Result record of `FHIRParser.extract_dosage`. -/
structure Dosage where
  text : PyVal
  timing : PyVal
  route : PyVal
  method : PyVal
  dose_quantity : PyVal
  dose_range_low : PyVal
  dose_range_high : PyVal
  max_dose_per_period : PyVal

def emptyDosage : Dosage :=
  ⟨.none, .none, .none, .none, .none, .none, .none, .none⟩

/-- The f-string `f"{qty['value']} {qty['unit']}" if qty['value'] and
qty['unit'] else qty['value']` used for dose and age quantities. -/
def fmtValueUnit (q : Quantity) : PyVal :=
  if q.value.truthy ∧ q.unit.truthy then .str (pyStr q.value ++ " " ++ pyStr q.unit)
  else q.value

/-- Embeds `FHIRParser.extract_dosage` (fhir_parser.py:389-447). The
`timing.get('code', {}).get('text')` chain raises `AttributeError` when the
timing's `code` entry is not a dict, exactly as in the source. -/
def extract_dosage (dosage_list : PyVal) : Except PyError Dosage := do
  match dosage_list with
  | .list (d0 :: _) =>
    let dosage := if d0.isDict then d0 else .dict []
    let text := dGet dosage "text"
    let timing := dGetD dosage "timing" (.dict [])
    let timingVal ←
      (match timing with
       | .dict tkvs => do
         let codeText ← pyGetE ((lookup tkvs "code").getD (.dict [])) "text"
         let rpt := (lookup tkvs "repeat").getD (.dict [])
         pure (if codeText.truthy then codeText else .str (pyStr rpt))
       | _ => pure PyVal.none)
    let route := extract_codeable_concept (dGet dosage "route")
    let method := extract_codeable_concept (dGet dosage "method")
    match dGetD dosage "doseAndRate" (.list []) with
    | .list (dr0 :: _) =>
      let dq ← pyGetE dr0 "doseQuantity"
      let dose_quantity :=
        if dq.truthy then fmtValueUnit (extract_quantity dq) else PyVal.none
      let drange ← pyGetE dr0 "doseRange"
      let (lowv, highv) :=
        if drange.truthy ∧ drange.isDict then
          ((extract_quantity (dGet drange "low")).value,
           (extract_quantity (dGet drange "high")).value)
        else (PyVal.none, PyVal.none)
      pure ⟨text, timingVal, route, method, dose_quantity, lowv, highv, .none⟩
    | _ => pure ⟨text, timingVal, route, method, .none, .none, .none, .none⟩
  | _ => pure emptyDosage

/-- Result record of `FHIRParser.extract_identifiers`. -/
structure Identifiers where
  mrn : PyVal
  uuid : PyVal
  ssn : PyVal
  driver_license : PyVal
  passport : PyVal
  all_identifiers : List PyVal

def emptyIdentifiers : Identifiers :=
  ⟨.none, .none, .none, .none, .none, []⟩

/-- One iteration of the `extract_identifiers` loop. Non-dict entries are
skipped; the `ident["type"]["coding"][0]` chain raises `IndexError` on an
empty coding list, exactly as in the source. -/
def identStep (acc : Identifiers) (ident : PyVal) : Except PyError Identifiers :=
  match ident with
  | .dict kvs => do
    let system := (lookup kvs "system").getD .none
    let value := (lookup kvs "value").getD .none
    let typeVal := (lookup kvs "type").getD .none
    let id_type ←
      (if typeVal.truthy then do
        let hasCoding ← pyContains (.str "coding") typeVal
        if hasCoding then do
          let codings ← pySubscriptStr typeVal "coding"
          let coding ← pyIndexZero codings
          pyGetE coding "code"
        else pure PyVal.none
      else pure PyVal.none)
    let acc' ←
      (if pyEqB id_type (.str "MR") then pure { acc with mrn := value }
       else if pyEqB system (.str "https://github.com/synthetichealth/synthea") then
         pure { acc with uuid := value }
       else do
         let ssnMatch ←
           (if pyEqB id_type (.str "SB") then pure true
            else pyContains (.str "us-ssn") (pyOr system (.str "")))
         if ssnMatch then pure { acc with ssn := value }
         else if pyEqB id_type (.str "DL") then pure { acc with driver_license := value }
         else if pyEqB id_type (.str "PPN") then pure { acc with passport := value }
         else pure acc)
    pure { acc' with
           all_identifiers :=
             acc'.all_identifiers ++
               [.dict [("system", system), ("type", id_type), ("value", value)]] }
  | _ => .ok acc

/-- Embeds `FHIRParser.extract_identifiers` (fhir_parser.py:259-309). -/
def extract_identifiers (identifier_list : PyVal) : Except PyError Identifiers :=
  match identifier_list with
  | .list (x :: rest) => (x :: rest).foldlM identStep emptyIdentifiers
  | _ => .ok emptyIdentifiers

/-- Embeds the `onset_data` computation of
`FHIRAnalyzer._extract_condition_data` (fhir_analyzer.py:331-342): the
branches are tried in the order datetime, age, period, string. -/
def conditionOnsetData (r : List (String × PyVal)) : List (String × PyVal) :=
  if hasKey r "onsetDateTime" then
    [("onset_datetime", (lookup r "onsetDateTime").getD .none)]
  else if hasKey r "onsetAge" then
    [("onset_age", fmtValueUnit (extract_quantity ((lookup r "onsetAge").getD .none)))]
  else if hasKey r "onsetPeriod" then
    let p := extract_period ((lookup r "onsetPeriod").getD .none)
    [("onset_period_start", p.startVal), ("onset_period_end", p.endVal)]
  else if hasKey r "onsetString" then
    [("onset_string", (lookup r "onsetString").getD .none)]
  else []

/-- Embeds the `performed_data` computation of
`FHIRAnalyzer._extract_procedure_data` (fhir_analyzer.py:414-425): the
branches are tried in the order datetime, period, string, age. -/
def procedurePerformedData (r : List (String × PyVal)) : List (String × PyVal) :=
  if hasKey r "performedDateTime" then
    [("performed_datetime", (lookup r "performedDateTime").getD .none)]
  else if hasKey r "performedPeriod" then
    let p := extract_period ((lookup r "performedPeriod").getD .none)
    [("performed_period_start", p.startVal), ("performed_period_end", p.endVal)]
  else if hasKey r "performedString" then
    [("performed_string", (lookup r "performedString").getD .none)]
  else if hasKey r "performedAge" then
    [("performed_age", fmtValueUnit (extract_quantity ((lookup r "performedAge").getD .none)))]
  else []

/-- A calendar date (as produced by `datetime.date`). -/
structure Date where
  year : Nat
  month : Nat
  day : Nat
deriving Repr, DecidableEq

/-- A timestamp (as produced by `datetime.fromisoformat`; the parsed offset is
dropped because `strftime` prints the local fields). -/
structure DateTime where
  year : Nat
  month : Nat
  day : Nat
  hour : Nat
  minute : Nat
  second : Nat
deriving Repr, DecidableEq

def isLeapYear (y : Nat) : Bool :=
  y % 4 = 0 ∧ (y % 100 ≠ 0 ∨ y % 400 = 0)

def daysInMonth (y m : Nat) : Nat :=
  if m = 1 ∨ m = 3 ∨ m = 5 ∨ m = 7 ∨ m = 8 ∨ m = 10 ∨ m = 12 then 31
  else if m = 4 ∨ m = 6 ∨ m = 9 ∨ m = 11 then 30
  else if m = 2 then (if isLeapYear y then 29 else 28)
  else 0

def allDigits (cs : List Char) : Bool :=
  cs.all Char.isDigit

/-- Embeds `datetime.strptime(v, "%Y-%m-%d")` followed by `.date()`: a
non-string raises `TypeError`; the format requires a four-digit year,
one-or-two-digit month and day, and a calendar-valid date. -/
def parseDate (v : PyVal) : Except PyError Date :=
  match v with
  | .str s =>
    match splitOnCharAux s.data '-' with
    | [y, m, d] =>
      if y.length = 4 ∧ allDigits y ∧
         1 ≤ m.length ∧ m.length ≤ 2 ∧ allDigits m ∧
         1 ≤ d.length ∧ d.length ≤ 2 ∧ allDigits d then
        let yn := digitsVal y
        let mn := digitsVal m
        let dn := digitsVal d
        if 1 ≤ mn ∧ mn ≤ 12 ∧ 1 ≤ dn ∧ dn ≤ daysInMonth yn mn then .ok ⟨yn, mn, dn⟩
        else .error (.valueError ("invalid date: " ++ s))
      else .error (.valueError ("time data " ++ s ++ " does not match format"))
    | _ => .error (.valueError ("time data " ++ s ++ " does not match format"))
  | _ => .error (.typeError "strptime() argument 1 must be str")

/-- Embeds the age computation of `FHIRAnalyzer._process_patient_info`
(fhir_analyzer.py:1017-1019): `today.year - birth.year - ((today.month,
today.day) < (birth.month, birth.day))`, with the boolean counting as 0/1. -/
def ageOn (today birth : Date) : Int :=
  (today.year : Int) - (birth.year : Int) -
    (if today.month < birth.month ∨ (today.month = birth.month ∧ today.day < birth.day)
     then 1 else 0)

/-- Strict parser for the date part `YYYY-MM-DD` of an ISO timestamp. -/
def parseIsoDate (cs : List Char) : Option (Nat × Nat × Nat) :=
  match splitOnCharAux cs '-' with
  | [y, m, d] =>
    if y.length = 4 ∧ allDigits y ∧ m.length = 2 ∧ allDigits m ∧
       d.length = 2 ∧ allDigits d then
      let yn := digitsVal y
      let mn := digitsVal m
      let dn := digitsVal d
      if 1 ≤ mn ∧ mn ≤ 12 ∧ 1 ≤ dn ∧ dn ≤ daysInMonth yn mn then some (yn, mn, dn)
      else Option.none
    else Option.none
  | _ => Option.none

/-- Checks a UTC-offset suffix of the form `+HH:MM` or `-HH:MM`. -/
def validOffset (cs : List Char) : Bool :=
  match cs with
  | c :: rest =>
    (c = '+' || c = '-') &&
      (match splitOnCharAux rest ':' with
       | [h, m] =>
         decide (h.length = 2) && allDigits h && decide (m.length = 2) && allDigits m &&
           decide (digitsVal m < 60)
       | _ => false)
  | [] => false

/-- Checks the tail after `HH:MM:SS`: empty, fractional seconds, a UTC
offset, or fractional seconds followed by an offset. -/
def validTimeTail : List Char → Bool
  | [] => true
  | '.' :: rest =>
    let frac := rest.takeWhile Char.isDigit
    let remainder := rest.dropWhile Char.isDigit
    decide (1 ≤ frac.length) && decide (frac.length ≤ 6) &&
      (remainder.isEmpty || validOffset remainder)
  | cs => validOffset cs

/-- Parser for the time part `HH:MM:SS[.ffffff][±HH:MM]`. -/
def parseIsoTime (cs : List Char) : Option (Nat × Nat × Nat) :=
  match cs with
  | h1 :: h2 :: ':' :: m1 :: m2 :: ':' :: s1 :: s2 :: tail =>
    if allDigits [h1, h2, m1, m2, s1, s2] ∧ validTimeTail tail then
      let h := digitsVal [h1, h2]
      let m := digitsVal [m1, m2]
      let sec := digitsVal [s1, s2]
      if h ≤ 23 ∧ m ≤ 59 ∧ sec ≤ 59 then some (h, m, sec) else Option.none
    else Option.none
  | _ => Option.none

/-- Embeds `datetime.fromisoformat` on the shapes this pipeline feeds it:
a bare date, or a date and a `HH:MM:SS` time joined by one separator
character, with optional fractional seconds and UTC offset. -/
def parseIsoDateTime (s : String) : Option DateTime :=
  let cs := s.data
  if cs.length = 10 then
    match parseIsoDate cs with
    | some (y, m, d) => some ⟨y, m, d, 0, 0, 0⟩
    | Option.none => Option.none
  else if cs.length > 11 then
    match parseIsoDate (cs.take 10) with
    | some (y, m, d) =>
      match parseIsoTime (cs.drop 11) with
      | some (h, mi, sec) => some ⟨y, m, d, h, mi, sec⟩
      | Option.none => Option.none
    | Option.none => Option.none
  else Option.none

def pad2 (n : Nat) : String :=
  if n < 10 then "0" ++ toString n else toString n

def pad4 (n : Nat) : String :=
  let s := toString n
  (List.replicate (4 - s.length) '0').asString ++ s

/-- Embeds `dt.strftime("%Y-%m-%d %H:%M:%S")`. -/
def formatTs (dt : DateTime) : String :=
  pad4 dt.year ++ "-" ++ pad2 dt.month ++ "-" ++ pad2 dt.day ++ " " ++
    pad2 dt.hour ++ ":" ++ pad2 dt.minute ++ ":" ++ pad2 dt.second

/-- Embeds `FHIRAnalyzer.iso_to_sql` (fhir_analyzer.py:1207-1219): `None`
passes through, a parsable ISO string (after `Z` → `+00:00`) is reformatted,
and anything else raises `ValueError`. -/
def iso_to_sql (v : PyVal) : Except PyError (Option String) :=
  match v with
  | .none => .ok Option.none
  | .str s =>
    match parseIsoDateTime (strReplace s "Z" "+00:00") with
    | some dt => .ok (some (formatTs dt))
    | Option.none => .error (.valueError ("Invalid ISO timestamp: " ++ s))
  | _ => .error (.valueError "Invalid ISO timestamp")

def optStrToPy : Option String → PyVal
  | some s => .str s
  | Option.none => .none

/-- The `patient_dict` built by `FHIRAnalyzer._process_patient_info`
(fhir_analyzer.py:1021-1039). The `ssn`/`mrn`/`uuid`/`passport` lookups use
those literal keys, although the upstream patient record stores `ssn_id`,
`mrn_id`, `uuid_id` and `passport_number`; the embedding reproduces the
lookups as written. -/
structure PatientDict where
  full_name : PyVal
  gender : PyVal
  birth_date : PyVal
  phone : PyVal
  email : PyVal
  address : PyVal
  country : PyVal
  state : PyVal
  city : PyVal
  current_age : Int
  ssn_id : PyVal
  mrn_id : PyVal
  uuid_id : PyVal
  driver_license : PyVal
  passport_number : PyVal
  deceased_datetime : Option String

/-- One value of the `out` mapping returned by `_process_patient_info`:
either the Patient record or a `{"resource_type": ..., "elements": [...]}`
group. -/
inductive OutEntry where
  | patient (pd : PatientDict) : OutEntry
  | group (resource_type : String) (elements : List (List (String × PyVal))) : OutEntry

/-- The per-type lists produced by `FHIRAnalyzer._process_bundle` that
`_process_patient_info` reads (the remaining categories are unused there). -/
structure CategorizedResources where
  patient : List PyVal
  allergyIntolerance : List PyVal
  immunization : List PyVal
  observation : List PyVal
  condition : List PyVal
  procedureRes : List PyVal
  carePlan : List PyVal

/-- Embeds the Patient block of `_process_patient_info`
(fhir_analyzer.py:1013-1060): age computation, `patient_dict`, and the
address/age description fragments. -/
def patientSection (today : Date) (p : PyVal) : Except PyError (PatientDict × String × String) :=
  match p with
  | .dict kvs => do
    let bd ← parseDate ((lookup kvs "birth_date").getD .none)
    let age := ageOn today bd
    let dd ← iso_to_sql ((lookup kvs "deceased_datetime").getD .none)
    let pd : PatientDict :=
      { full_name := (lookup kvs "full_name").getD .none
        gender := (lookup kvs "gender").getD .none
        birth_date := (lookup kvs "birth_date").getD .none
        phone := (lookup kvs "phone").getD .none
        email := (lookup kvs "email").getD .none
        address := (lookup kvs "address_full").getD .none
        country := (lookup kvs "address_country").getD .none
        state := (lookup kvs "address_state").getD .none
        city := (lookup kvs "address_city").getD .none
        current_age := age
        ssn_id := (lookup kvs "ssn").getD .none
        mrn_id := (lookup kvs "mrn").getD .none
        uuid_id := (lookup kvs "uuid").getD .none
        driver_license := (lookup kvs "driver_license").getD .none
        passport_number := (lookup kvs "passport").getD .none
        deceased_datetime := dd }
    let address_str := if pd.address.truthy then " Address: " ++ pyStr pd.address else ""
    let age_str := if age ≠ 0 then " Age: " ++ toString age else ""
    pure (pd, age_str, address_str)
  | _ => .error (.attributeError "object has no attribute get: birth_date")

/-- One iteration of the allergy loop (fhir_analyzer.py:1066-1082). The
`al_list` accumulator is re-created inside the loop in the source, so only
the record of the last allergy survives; the running description string
accumulates across iterations. -/
def allergyStep (st : String × List (List (String × PyVal))) (a : PyVal) :
    Except PyError (String × List (List (String × PyVal))) :=
  match a with
  | .dict kvs => do
    let asserted ← iso_to_sql ((lookup kvs "assertedDate").getD .none)
    let record : List (String × PyVal) :=
      [("resource_type", .str "AllergyIntolerance"),
       ("type", (lookup kvs "type").getD .none),
       ("category", (lookup kvs "category").getD .none),
       ("criticality", (lookup kvs "criticality").getD .none),
       ("code", (lookup kvs "code").getD .none),
       ("verification_status", (lookup kvs "verificationStatus").getD .none),
       ("clinical_status", (lookup kvs "clinicalStatus").getD .none),
       ("assertedDate", optStrToPy asserted)]
    let name ←
      (match (lookup kvs "code").getD .none with
       | .str s => pure (strReplace (strReplace s "Allergy to " " ") "allergy" " ")
       | _ => Except.error (.attributeError "object has no attribute replace"))
    let s0 := st.1
    let s1 := if s0 ≠ "Allergic to: " then s0 ++ ", " else s0
    let s2 := s1 ++ " " ++ name ++ " (severity: " ++
      pyStr ((lookup kvs "criticality").getD .none) ++ ")"
    pure (s2, [record])
  | _ => .error (.attributeError "object has no attribute get: date")

/-- Embeds the AllergyIntolerance block of `_process_patient_info`
(fhir_analyzer.py:1063-1085), yielding the allergy description string and
the `out` contribution. -/
def processAllergies (allergies : List PyVal) :
    Except PyError (String × List (String × OutEntry)) :=
  match allergies with
  | [] => .ok ("", [])
  | xs => do
    let (s, al) ← xs.foldlM allergyStep ("Allergic to: ", [])
    pure (s, [("AllergyIntolerance", OutEntry.group "AllergyIntolerance" al)])

/-- The record built for one immunization (fhir_analyzer.py:1092-1098). -/
def immRecord (a : PyVal) : Except PyError (List (String × PyVal)) :=
  match a with
  | .dict kvs => do
    let imm_date ← iso_to_sql ((lookup kvs "date").getD .none)
    pure [("resource_type", .str "Immunization"),
          ("vaccine_code", (lookup kvs "vaccine_code").getD .none),
          ("imm_date", optStrToPy imm_date),
          ("status", (lookup kvs "status").getD .none)]
  | _ => .error (.attributeError "object has no attribute get: vaccine_code")

/-- Embeds the Immunization block of `_process_patient_info`
(fhir_analyzer.py:1088-1100). -/
def processImmunizations (l : List PyVal) : Except PyError (List (String × OutEntry)) :=
  match l with
  | [] => .ok []
  | xs => do
    let elems ← xs.mapM immRecord
    pure [("Immunization", OutEntry.group "Immunization" elems)]

/-- The record built for one observation (fhir_analyzer.py:1107-1113). -/
def obsRecord (a : PyVal) : Except PyError (List (String × PyVal)) :=
  match a with
  | .dict kvs => do
    let obs_date ← iso_to_sql ((lookup kvs "effective_datetime").getD .none)
    pure [("resource_type", .str "Observation"),
          ("code", (lookup kvs "code").getD .none),
          ("obs_date", optStrToPy obs_date),
          ("value", (lookup kvs "value_quantity").getD .none),
          ("unit", (lookup kvs "value_unit").getD .none)]
  | _ => .error (.attributeError "object has no attribute get: code")

/-- Embeds the Observation block of `_process_patient_info`
(fhir_analyzer.py:1103-1115). -/
def processObservations (l : List PyVal) : Except PyError (List (String × OutEntry)) :=
  match l with
  | [] => .ok []
  | xs => do
    let elems ← xs.mapM obsRecord
    pure [("Observation", OutEntry.group "Observation" elems)]

/-- One iteration of the condition loop (fhir_analyzer.py:1122-1134):
appends the condition record and extends the running description string. -/
def conditionStep (st : String × List (List (String × PyVal))) (a : PyVal) :
    Except PyError (String × List (List (String × PyVal))) :=
  match a with
  | .dict kvs => do
    let onset ← iso_to_sql ((lookup kvs "onset_datetime").getD .none)
    let asserted ← iso_to_sql ((lookup kvs "assertedDate").getD .none)
    let record : List (String × PyVal) :=
      [("resource_type", .str "Condition"),
       ("code", (lookup kvs "code").getD .none),
       ("onset", optStrToPy onset),
       ("verification_status", (lookup kvs "verificationStatus").getD .none),
       ("clinical_status", (lookup kvs "clinicalStatus").getD .none),
       ("assertedDate", optStrToPy asserted)]
    let s0 := st.1
    let s1 := if s0 ≠ "Patient has: " then s0 ++ ", " else s0
    let s2 := s1 ++ " " ++ pyStr ((lookup kvs "code").getD .none)
    pure (s2, st.2 ++ [record])
  | _ => .error (.attributeError "object has no attribute get: code")

/-- Embeds the Condition block of `_process_patient_info`
(fhir_analyzer.py:1118-1137). -/
def processConditions (conditions : List PyVal) :
    Except PyError (String × List (String × OutEntry)) :=
  match conditions with
  | [] => .ok ("", [])
  | xs => do
    let (s, cnd) ← xs.foldlM conditionStep ("Patient has: ", [])
    pure (s, [("Condition", OutEntry.group "Condition" cnd)])

/-- The record built for one procedure (fhir_analyzer.py:1158-1162). -/
def procRecord (a : PyVal) : Except PyError (List (String × PyVal)) :=
  match a with
  | .dict kvs => do
    let proc_date ← iso_to_sql ((lookup kvs "performed_period_start").getD .none)
    pure [("resource_type", .str "Procedures"),
          ("code", (lookup kvs "code").getD .none),
          ("proc_date", optStrToPy proc_date)]
  | _ => .error (.attributeError "object has no attribute get: code")

/-- Embeds the Procedure block of `_process_patient_info`
(fhir_analyzer.py:1154-1164); the output group is keyed `Procedures`. -/
def processProcedures (l : List PyVal) : Except PyError (List (String × OutEntry)) :=
  match l with
  | [] => .ok []
  | xs => do
    let elems ← xs.mapM procRecord
    pure [("Procedures", OutEntry.group "Procedures" elems)]

/-- The record built for one care plan (fhir_analyzer.py:1184-1191). -/
def carePlanRecord (a : PyVal) : Except PyError (List (String × PyVal)) :=
  match a with
  | .dict kvs => do
    let cp_start ← iso_to_sql ((lookup kvs "period_start").getD .none)
    let cp_end ← iso_to_sql ((lookup kvs "period_end").getD .none)
    pure [("resource_type", .str "CarePlan"),
          ("category", (lookup kvs "category").getD .none),
          ("cp_start", optStrToPy cp_start),
          ("CP_end", optStrToPy cp_end),
          ("status", (lookup kvs "status").getD .none),
          ("activities", (lookup kvs "activities").getD .none)]
  | _ => .error (.attributeError "object has no attribute get: category")

/-- Embeds the CarePlan block of `_process_patient_info`
(fhir_analyzer.py:1180-1193). -/
def processCarePlans (l : List PyVal) : Except PyError (List (String × OutEntry)) :=
  match l with
  | [] => .ok []
  | xs => do
    let elems ← xs.mapM carePlanRecord
    pure [("CarePlan", OutEntry.group "CarePlan" elems)]

/-- Embeds `FHIRAnalyzer._process_patient_info` (fhir_analyzer.py:998-1197).
When the Patient list is empty, the Patient block is skipped, so the final
f-string references the never-assigned local `age_str` and the function
fails with an unbound-local error — after the other resource blocks have run
(any exception of theirs fires first), as in the source. -/
def processPatientInfo (today : Date) (pi : CategorizedResources) :
    Except PyError (String × List (String × OutEntry)) := do
  let patOpt ←
    (match pi.patient with
     | [] => pure (Option.none : Option (PatientDict × String × String))
     | p :: _ => do
       let r ← patientSection today p
       pure (some r))
  let (allergy_str, alOut) ← processAllergies pi.allergyIntolerance
  let immOut ← processImmunizations pi.immunization
  let obsOut ← processObservations pi.observation
  let (conditions_str, condOut) ← processConditions pi.condition
  let procOut ← processProcedures pi.procedureRes
  let cpOut ← processCarePlans pi.carePlan
  match patOpt with
  | Option.none => Except.error (.unboundLocal "age_str")
  | some (pd, age_str, address_str) =>
    let out := ("Patient", OutEntry.patient pd) ::
      (alOut ++ immOut ++ obsOut ++ condOut ++ procOut ++ cpOut)
    let info := conditions_str ++ ". " ++ allergy_str ++ ". " ++ age_str ++ ". " ++ address_str
    pure (info, out)

/-- Database actions issued by `FHIRExtactor.extract_data` for one document,
in order: row inserts and the business-key → surrogate-key resolution
(`get_row_id`). -/
inductive Event where
  | insertRow (table : String) (values : List (String × PyVal)) : Event
  | resolveKey (table : String) (column : String) (value : PyVal) (result : Int) : Event

def resourceTypeOf : OutEntry → String
  | .patient _ => "Patient"
  | .group rt _ => rt

/-- `input_data.pop("resource_type")`. -/
def popKey (l : List (String × PyVal)) (k : String) : List (String × PyVal) :=
  l.filter (fun kv => kv.1 ≠ k)

/-- The Patient `input_data` dict of `extract_data`
(extract_data_from_fhir.py:59-79); the `deceased` flag is the truthiness of
the deceased datetime. -/
def patientRowValues (pid : PyVal) (info vec : String) (pd : PatientDict) :
    List (String × PyVal) :=
  [("patient_id", pid),
   ("description", .str info),
   ("description_vector", .str vec),
   ("full_name", pd.full_name),
   ("gender", pd.gender),
   ("age", .int pd.current_age),
   ("birthdate", pd.birth_date),
   ("phone", pd.phone),
   ("email", pd.email),
   ("address", pd.address),
   ("state", pd.state),
   ("city", pd.city),
   ("country", pd.country),
   ("social_security_number", pd.ssn_id),
   ("medical_record_number", pd.mrn_id),
   ("driver_license", pd.driver_license),
   ("passport_number", pd.passport_number),
   ("deceased", .bool (optStrToPy pd.deceased_datetime).truthy),
   ("deceased_datetime", optStrToPy pd.deceased_datetime)]

/-- The child `input_data` dict of `extract_data`
(extract_data_from_fhir.py:86-90): the resolved surrogate key first, then the
element's own fields minus `resource_type` (elements never carry a
`patient_id` key of their own). -/
def childRow (k : Int) (elem : List (String × PyVal)) : List (String × PyVal) :=
  ("patient_id", .int k) :: popKey elem "resource_type"

/-- The per-resource loop of `FHIRExtactor.extract_data`
(extract_data_from_fhir.py:47-91) over one document's `pat_data`, emitting
the trace of database actions. `pr` is the current value of the
`pat_row_id` local (unbound before the Patient branch ran). -/
def extractDataGo (tableExists : String → Bool) (pid : PyVal) (info vec : String)
    (k : Int) : List (String × OutEntry) → Option Int → Except PyError (List Event)
  | [], _ => .ok []
  | (_, entry) :: rest, pr =>
    let rt := resourceTypeOf entry
    if rt = "Encounter" ∨ rt = "DiagnosticReport" then
      extractDataGo tableExists pid info vec k rest pr
    else if ¬ tableExists rt then .error (.tableMissing rt)
    else if rt = "Patient" then
      match entry with
      | .patient pd => do
        let tail ← extractDataGo tableExists pid info vec k rest (some k)
        pure (Event.insertRow "Patient" (patientRowValues pid info vec pd) ::
              Event.resolveKey "Patient" "patient_id" pid k :: tail)
      | .group _ _ => .error (.keyError "full_name")
    else
      match entry with
      | .group grt elems =>
        (match pr with
         | Option.none => .error (.unboundLocal "pat_row_id")
         | some kk => do
           let tail ← extractDataGo tableExists pid info vec k rest pr
           pure (elems.map (fun el => Event.insertRow grt (childRow kk el)) ++ tail))
      | .patient _ => .error (.keyError "elements")

/-- The trace of database actions `extract_data` issues for one document
whose analyzed output is `out`, given the surrogate key `k` the database
assigns to the inserted Patient row. -/
def extract_data_doc (tableExists : String → Bool) (pid : PyVal) (info vec : String)
    (k : Int) (out : List (String × OutEntry)) : Except PyError (List Event) :=
  extractDataGo tableExists pid info vec k out Option.none

/-- A positional SQL query parameter. -/
inductive SqlParam where
  | pInt (n : Int) : SqlParam
  | pStr (s : String) : SqlParam
deriving Repr, DecidableEq

/-- The projection head of the hybrid query (search.py:35-41). -/
def baseSelect : String :=
  "\n    SELECT TOP ?\n        patient_row_id, description,\n        patient_id, full_name, gender, age, birthdate, deceased,\n        social_security_number, medical_record_number, driver_license, passport_number,\n        address, phone, email, state, city, country, deceased_datetime\n    "

/-- The vector-similarity projection term (search.py:44-46). -/
def simVec : String :=
  "\n        ,VECTOR_DOT_PRODUCT(description_vector,TO_VECTOR(?,float)) as similarity\n        "

/-- The constant-zero similarity projection term (search.py:49-51). -/
def simZero : String :=
  "\n        ,0 as similarity\n        "

/-- The FROM/WHERE scaffold (search.py:52-55). -/
def fromWhere : String :=
  "\n    FROM SQLUser.Patient\n    WHERE 1=1\n    "

/-- Embeds `build_hybrid_query` (search.py:10-81). `embedding_str` is `None`
or the embedding's string form; the vector term is used when it is a
non-empty string. -/
def build_hybrid_query (embedding_str : Option String) (num_results : Int)
    (gender deceased : String) (age_range : Int × Int) : String × List SqlParam :=
  let hasVec : Bool := match embedding_str with
    | some s => decide (s ≠ "")
    | Option.none => false
  let q1 := baseSelect ++ (if hasVec then simVec else simZero) ++ fromWhere
  let p1 := [SqlParam.pInt num_results] ++
    (if hasVec then [SqlParam.pStr (embedding_str.getD "")] else [])
  let q2 := if gender ≠ "Any" then q1 ++ " AND gender = ?" else q1
  let p2 := if gender ≠ "Any" then p1 ++ [SqlParam.pStr gender] else p1
  let q3 :=
    if deceased = "Alive" then q2 ++ " AND (deceased = 0 OR deceased IS NULL)"
    else if deceased = "Deceased" then q2 ++ " AND deceased = 1"
    else q2
  let q4 := if age_range ≠ (0, 120) then q3 ++ " AND age BETWEEN ? AND ?" else q3
  let p4 :=
    if age_range ≠ (0, 120) then p2 ++ [SqlParam.pInt age_range.1, SqlParam.pInt age_range.2]
    else p2
  let q5 :=
    if hasVec then
      q4 ++ " ORDER BY VECTOR_DOT_PRODUCT(description_vector,TO_VECTOR(?,float)) DESC "
    else q4
  let p5 := if hasVec then p4 ++ [SqlParam.pStr (embedding_str.getD "")] else p4
  (q5, p5)

/-- The three filter inputs of the search page. -/
structure Filters where
  gender : String
  deceased : String
  age_range : Int × Int

/-- Outcome of one search invocation: either the caught exception is shown
and no results are produced, or the built query runs and its rows are
returned. -/
inductive SearchOutcome where
  | failed (msg : String) : SearchOutcome
  | ran (query : String) (params : List SqlParam) : SearchOutcome
deriving Repr, DecidableEq

/-- Embeds `execute_search` (search.py:124-158). The embedding service is
called only for a non-blank query; its exception propagates to the
surrounding `except` and the search fails. A blank query sets the embedding
string to `None`. -/
def execute_search (embedService : String → Except String String)
    (search_query : String) (num_results : Int) (f : Filters) : SearchOutcome :=
  let embRes : Except String (Option String) :=
    if pyStrip search_query = "" then .ok Option.none
    else
      match embedService search_query with
      | .ok v => .ok (some v)
      | .error e => .error e
  match embRes with
  | .error e => .failed e
  | .ok eopt =>
    let (q, ps) := build_hybrid_query eopt num_results f.gender f.deceased f.age_range
    .ran q ps

/-! Claim-side definitions: these follow the specification's words, for
comparison against the embedded source functions. -/

/-- The coded-concept default policy as the claim states it: free text if
present, else the FIRST coding entry's display, else the FIRST coding
entry's code, else null — later coding entries are never consulted. -/
def claimCodeableConcept (cc : PyVal) : PyVal :=
  if ¬ cc.truthy ∨ ¬ cc.isDict then .none
  else
    let text := dGet cc "text"
    if text.truthy then text
    else
      match dGetD cc "coding" (.list []) with
      | .list (c0 :: _) =>
        let d := dGet c0 "display"
        if d.truthy then d
        else
          let co := dGet c0 "code"
          if co.truthy then co else .none
      | _ => .none

/-- Value yielded by one coding entry in the amended reading of the
codeable-concept scan: its display if truthy, else its code if truthy. -/
def codingEntryValue (c : PyVal) : Option PyVal :=
  match c with
  | .dict _ =>
    if (dGet c "display").truthy then some (dGet c "display")
    else if (dGet c "code").truthy then some (dGet c "code")
    else Option.none
  | _ => Option.none

/-- The Condition onset decoding as the claim states it, with the priority
order datetime, then period, then age, then string. -/
def claimConditionOnsetData (r : List (String × PyVal)) : List (String × PyVal) :=
  if hasKey r "onsetDateTime" then
    [("onset_datetime", (lookup r "onsetDateTime").getD .none)]
  else if hasKey r "onsetPeriod" then
    let p := extract_period ((lookup r "onsetPeriod").getD .none)
    [("onset_period_start", p.startVal), ("onset_period_end", p.endVal)]
  else if hasKey r "onsetAge" then
    [("onset_age", fmtValueUnit (extract_quantity ((lookup r "onsetAge").getD .none)))]
  else if hasKey r "onsetString" then
    [("onset_string", (lookup r "onsetString").getD .none)]
  else []

/-- The Procedure performed decoding as the claim states it, with the
priority order datetime, then period, then age, then string. -/
def claimProcedurePerformedData (r : List (String × PyVal)) : List (String × PyVal) :=
  if hasKey r "performedDateTime" then
    [("performed_datetime", (lookup r "performedDateTime").getD .none)]
  else if hasKey r "performedPeriod" then
    let p := extract_period ((lookup r "performedPeriod").getD .none)
    [("performed_period_start", p.startVal), ("performed_period_end", p.endVal)]
  else if hasKey r "performedAge" then
    [("performed_age", fmtValueUnit (extract_quantity ((lookup r "performedAge").getD .none)))]
  else if hasKey r "performedString" then
    [("performed_string", (lookup r "performedString").getD .none)]
  else []

/-- The description join as the claim states it: the four fragments in fixed
order, each omitted entirely when its source data is absent, the remaining
ones joined with ". " (so no empty fragments or stray separators). -/
def specJoinFragments (frags : List String) : String :=
  joinBy ". " (frags.filter (fun s => decide (s ≠ "")))

/-- The spec's error taxonomy (§7) calls required-field-missing failures
`ValidationError`; in this codebase such validation failures surface as
`ValueError` raises, never as unbound-local errors. -/
def isValidationError : PyError → Bool
  | .valueError _ => true
  | _ => false

/-- The outcome the claim predicts for an embedding-request failure: the
filter-only, unranked query still runs and returns its rows. -/
def claimDegradedOutcome (n : Int) (f : Filters) : SearchOutcome :=
  let (q, ps) := build_hybrid_query Option.none n f.gender f.deceased f.age_range
  SearchOutcome.ran q ps

/-! Concrete example inputs used by witnesses and counterexamples. -/

/-- A minimal extracted Patient record (born 1950-06-15). -/
def exPatientRes : PyVal := .dict [("birth_date", .str "1950-06-15")]

/-- The `patient_dict` the analyzer builds from `exPatientRes` on
2024-07-01. -/
def exPatientDict : PatientDict :=
  ⟨.none, .none, .str "1950-06-15", .none, .none, .none, .none, .none, .none,
   74, .none, .none, .none, .none, .none, Option.none⟩

/-- An extracted Patient record with an address and a deceased datetime. -/
def exPatientResFull : PyVal :=
  .dict [("birth_date", .str "1950-06-15"),
         ("address_full", .str "12 Main Street"),
         ("deceased_datetime", .str "2020-01-01T00:00:00Z")]

/-- The `patient_dict` the analyzer builds from `exPatientResFull` on
2024-07-01. -/
def exPatientDictFull : PatientDict :=
  ⟨.none, .none, .str "1950-06-15", .none, .none, .str "12 Main Street",
   .none, .none, .none, 74, .none, .none, .none, .none, .none,
   some "2020-01-01 00:00:00"⟩

/-- A Condition resource carrying both an onset age and an onset period. -/
def exOnsetRes : List (String × PyVal) :=
  [("onsetAge", .dict [("value", .int 5), ("unit", .str "years")]),
   ("onsetPeriod", .dict [("start", .str "2020-01-01"), ("end", .str "2021-01-01")])]

/-- A Procedure resource carrying both a performed string and a performed
age. -/
def exPerformedRes : List (String × PyVal) :=
  [("performedString", .str "childhood"),
   ("performedAge", .dict [("value", .int 9), ("unit", .str "years")])]

/-! Helper lemmas. -/

theorem bind_ok {α β : Type} {x : Except PyError α} {f : α → Except PyError β} {b : β}
    (h : x >>= f = .ok b) : ∃ a, x = .ok a ∧ f a = .ok b := by
  cases x with
  | error e => exact absurd h (by simp [Bind.bind, Except.bind])
  | ok a => exact ⟨a, rfl, by simpa [Bind.bind, Except.bind] using h⟩

theorem codingScan_eq (xs : List PyVal) :
    codingScan xs = xs.findSome? codingEntryValue := by
  induction xs with
  | nil => rfl
  | cons c rest ih =>
    cases c with
    | dict kvs =>
      simp only [codingScan, codingEntryValue, List.findSome?]
      split_ifs <;> simp [ih]
    | none => simpa [codingScan, codingEntryValue, List.findSome?] using ih
    | bool b => simpa [codingScan, codingEntryValue, List.findSome?] using ih
    | int n => simpa [codingScan, codingEntryValue, List.findSome?] using ih
    | str s => simpa [codingScan, codingEntryValue, List.findSome?] using ih
    | list ys => simpa [codingScan, codingEntryValue, List.findSome?] using ih

theorem formatTs_ne_empty (dt : DateTime) : formatTs dt ≠ "" := by
  intro h
  have hlen := congrArg String.length h
  simp only [formatTs, String.length_append] at hlen
  have hdash : ("-" : String).length = 1 := rfl
  have hemp : ("" : String).length = 0 := rfl
  omega

theorem iso_to_sql_ok_some {v : PyVal} {s : String}
    (h : iso_to_sql v = .ok (some s)) : s ≠ "" := by
  cases v with
  | str t =>
    simp only [iso_to_sql] at h
    cases hp : parseIsoDateTime (strReplace t "Z" "+00:00") with
    | none => rw [hp] at h; exact absurd h (by simp)
    | some dt =>
      rw [hp] at h
      have : formatTs dt = s := by
        have := h
        simp only [Except.ok.injEq, Option.some.injEq] at this
        exact this
      rw [← this]
      exact formatTs_ne_empty dt
  | none => exact absurd h (by simp [iso_to_sql])
  | bool b => exact absurd h (by simp [iso_to_sql])
  | int n => exact absurd h (by simp [iso_to_sql])
  | list xs => exact absurd h (by simp [iso_to_sql])
  | dict kvs => exact absurd h (by simp [iso_to_sql])

theorem pure_ok {α : Type} {a b : α} (h : (pure a : Except PyError α) = .ok b) : a = b :=
  Except.ok.inj h

theorem processAllergies_entries {l : List PyVal} {r : String × List (String × OutEntry)}
    (h : processAllergies l = .ok r) :
    ∀ kv ∈ r.2, ∃ elems, kv = ("AllergyIntolerance", OutEntry.group "AllergyIntolerance" elems) := by
  cases l with
  | nil =>
    have he := Except.ok.inj h
    subst he
    simp
  | cons x xs =>
    simp only [processAllergies] at h
    obtain ⟨a, hf, h⟩ := bind_ok h
    obtain ⟨s', al⟩ := a
    have he := pure_ok h
    subst he
    intro kv hkv
    simp only [List.mem_singleton] at hkv
    subst hkv
    exact ⟨al, rfl⟩

theorem processImmunizations_entries {l : List PyVal} {r : List (String × OutEntry)}
    (h : processImmunizations l = .ok r) :
    ∀ kv ∈ r, ∃ elems, kv = ("Immunization", OutEntry.group "Immunization" elems) := by
  cases l with
  | nil =>
    have he := Except.ok.inj h
    subst he
    simp
  | cons x xs =>
    simp only [processImmunizations] at h
    obtain ⟨a, hf, h⟩ := bind_ok h
    have he := pure_ok h
    subst he
    intro kv hkv
    simp only [List.mem_singleton] at hkv
    subst hkv
    exact ⟨a, rfl⟩

theorem processObservations_entries {l : List PyVal} {r : List (String × OutEntry)}
    (h : processObservations l = .ok r) :
    ∀ kv ∈ r, ∃ elems, kv = ("Observation", OutEntry.group "Observation" elems) := by
  cases l with
  | nil =>
    have he := Except.ok.inj h
    subst he
    simp
  | cons x xs =>
    simp only [processObservations] at h
    obtain ⟨a, hf, h⟩ := bind_ok h
    have he := pure_ok h
    subst he
    intro kv hkv
    simp only [List.mem_singleton] at hkv
    subst hkv
    exact ⟨a, rfl⟩

theorem processConditions_entries {l : List PyVal} {r : String × List (String × OutEntry)}
    (h : processConditions l = .ok r) :
    ∀ kv ∈ r.2, ∃ elems, kv = ("Condition", OutEntry.group "Condition" elems) := by
  cases l with
  | nil =>
    have he := Except.ok.inj h
    subst he
    simp
  | cons x xs =>
    simp only [processConditions] at h
    obtain ⟨a, hf, h⟩ := bind_ok h
    obtain ⟨s', cnd⟩ := a
    have he := pure_ok h
    subst he
    intro kv hkv
    simp only [List.mem_singleton] at hkv
    subst hkv
    exact ⟨cnd, rfl⟩

theorem processProcedures_entries {l : List PyVal} {r : List (String × OutEntry)}
    (h : processProcedures l = .ok r) :
    ∀ kv ∈ r, ∃ elems, kv = ("Procedures", OutEntry.group "Procedures" elems) := by
  cases l with
  | nil =>
    have he := Except.ok.inj h
    subst he
    simp
  | cons x xs =>
    simp only [processProcedures] at h
    obtain ⟨a, hf, h⟩ := bind_ok h
    have he := pure_ok h
    subst he
    intro kv hkv
    simp only [List.mem_singleton] at hkv
    subst hkv
    exact ⟨a, rfl⟩

theorem processCarePlans_entries {l : List PyVal} {r : List (String × OutEntry)}
    (h : processCarePlans l = .ok r) :
    ∀ kv ∈ r, ∃ elems, kv = ("CarePlan", OutEntry.group "CarePlan" elems) := by
  cases l with
  | nil =>
    have he := Except.ok.inj h
    subst he
    simp
  | cons x xs =>
    simp only [processCarePlans] at h
    obtain ⟨a, hf, h⟩ := bind_ok h
    have he := pure_ok h
    subst he
    intro kv hkv
    simp only [List.mem_singleton] at hkv
    subst hkv
    exact ⟨a, rfl⟩

/-- Successful analyzer output starts with the Patient entry, and every
later entry is a non-Patient element group. -/
theorem processPatientInfo_shape {today : Date} {pi : CategorizedResources}
    {info : String} {out : List (String × OutEntry)}
    (h : processPatientInfo today pi = .ok (info, out)) :
    ∃ pd rest, out = ("Patient", OutEntry.patient pd) :: rest ∧
      ∀ kv ∈ rest, ∃ rt elems, (kv : String × OutEntry).2 = OutEntry.group rt elems ∧
        rt ≠ "Patient" := by
  unfold processPatientInfo at h
  obtain ⟨patOpt, hpat, h⟩ := bind_ok h
  obtain ⟨al, hal, h⟩ := bind_ok h
  obtain ⟨s_al, alOut⟩ := al
  obtain ⟨immOut, him, h⟩ := bind_ok h
  obtain ⟨obsOut, hob, h⟩ := bind_ok h
  obtain ⟨cond, hcond, h⟩ := bind_ok h
  obtain ⟨s_cond, condOut⟩ := cond
  obtain ⟨procOut, hproc, h⟩ := bind_ok h
  obtain ⟨cpOut, hcp, h⟩ := bind_ok h
  cases patOpt with
  | none => exact absurd h (by simp)
  | some trip =>
    obtain ⟨pd, age_str, address_str⟩ := trip
    have he := pure_ok h
    have hout : out = ("Patient", OutEntry.patient pd) ::
        (alOut ++ immOut ++ obsOut ++ condOut ++ procOut ++ cpOut) := by
      have := congrArg Prod.snd he
      simpa using this.symm
    refine ⟨pd, _, hout, ?_⟩
    intro kv hkv
    simp only [List.append_assoc, List.mem_append] at hkv
    rcases hkv with hkv | hkv | hkv | hkv | hkv | hkv
    · obtain ⟨elems, hkv⟩ := processAllergies_entries hal kv hkv
      exact ⟨"AllergyIntolerance", elems, by rw [hkv], by decide⟩
    · obtain ⟨elems, hkv⟩ := processImmunizations_entries him kv hkv
      exact ⟨"Immunization", elems, by rw [hkv], by decide⟩
    · obtain ⟨elems, hkv⟩ := processObservations_entries hob kv hkv
      exact ⟨"Observation", elems, by rw [hkv], by decide⟩
    · obtain ⟨elems, hkv⟩ := processConditions_entries hcond kv hkv
      exact ⟨"Condition", elems, by rw [hkv], by decide⟩
    · obtain ⟨elems, hkv⟩ := processProcedures_entries hproc kv hkv
      exact ⟨"Procedures", elems, by rw [hkv], by decide⟩
    · obtain ⟨elems, hkv⟩ := processCarePlans_entries hcp kv hkv
      exact ⟨"CarePlan", elems, by rw [hkv], by decide⟩

/-- Running the per-resource loop on non-Patient group entries with the
surrogate key already resolved yields only child inserts keyed by that
surrogate key. -/
theorem extractDataGo_children {tE : String → Bool} {pid : PyVal} {info vec : String}
    {k : Int} (hT : ∀ t, tE t = true) :
    ∀ entries : List (String × OutEntry),
      (∀ kv ∈ entries, ∃ rt elems, (kv : String × OutEntry).2 = OutEntry.group rt elems ∧
        rt ≠ "Patient") →
      ∀ evs, extractDataGo tE pid info vec k entries (some k) = .ok evs →
      ∀ e ∈ evs, ∃ t vals, e = Event.insertRow t vals ∧ t ≠ "Patient" ∧
        vals.head? = some ("patient_id", PyVal.int k) := by
  intro entries
  induction entries with
  | nil =>
    intro _ evs hevs
    have he := Except.ok.inj hevs
    subst he
    simp
  | cons kv rest ih =>
    intro hmem evs hevs e he
    obtain ⟨rt, elems, hkv2, hrtne⟩ := hmem kv (List.mem_cons_self _ _)
    obtain ⟨key, entry⟩ := kv
    simp only at hkv2
    subst hkv2
    simp only [extractDataGo, resourceTypeOf] at hevs
    by_cases hskip : rt = "Encounter" ∨ rt = "DiagnosticReport"
    · rw [if_pos hskip] at hevs
      exact ih (fun kv' hk => hmem kv' (List.mem_cons_of_mem _ hk)) evs hevs e he
    · rw [if_neg hskip] at hevs
      rw [hT rt] at hevs
      rw [if_neg (by simp)] at hevs
      rw [if_neg hrtne] at hevs
      obtain ⟨tail, htail, hevs⟩ := bind_ok hevs
      have he2 := pure_ok hevs
      subst he2
      rcases List.mem_append.mp he with hmap | htl
      · obtain ⟨el, _, hel⟩ := List.mem_map.mp hmap
        exact ⟨rt, childRow k el, hel.symm, hrtne, rfl⟩
      · exact ih (fun kv' hk => hmem kv' (List.mem_cons_of_mem _ hk)) tail htail e htl

/-- Invariants of the Patient block: the stored deceased datetime is an
`iso_to_sql` output, and the stored age is `ageOn` of the parsed birth
date. -/
theorem patientSection_inv {today : Date} {p : PyVal} {pd : PatientDict} {a b : String}
    (h : patientSection today p = .ok (pd, a, b)) :
    (∃ v, iso_to_sql v = .ok pd.deceased_datetime) ∧
    ∀ bd, parseDate (dGet p "birth_date") = .ok bd → pd.current_age = ageOn today bd := by
  cases p with
  | dict kvs =>
    simp only [patientSection] at h
    obtain ⟨bd0, hbd0, h⟩ := bind_ok h
    obtain ⟨dd0, hdd0, h⟩ := bind_ok h
    have he := pure_ok h
    have hpd : pd = { full_name := (lookup kvs "full_name").getD .none
                      gender := (lookup kvs "gender").getD .none
                      birth_date := (lookup kvs "birth_date").getD .none
                      phone := (lookup kvs "phone").getD .none
                      email := (lookup kvs "email").getD .none
                      address := (lookup kvs "address_full").getD .none
                      country := (lookup kvs "address_country").getD .none
                      state := (lookup kvs "address_state").getD .none
                      city := (lookup kvs "address_city").getD .none
                      current_age := ageOn today bd0
                      ssn_id := (lookup kvs "ssn").getD .none
                      mrn_id := (lookup kvs "mrn").getD .none
                      uuid_id := (lookup kvs "uuid").getD .none
                      driver_license := (lookup kvs "driver_license").getD .none
                      passport_number := (lookup kvs "passport").getD .none
                      deceased_datetime := dd0 } := (congrArg Prod.fst he).symm
    constructor
    · refine ⟨(lookup kvs "deceased_datetime").getD .none, ?_⟩
      rw [hpd]
      exact hdd0
    · intro bd hbd
      have hg : dGet (.dict kvs) "birth_date" = (lookup kvs "birth_date").getD .none := rfl
      rw [hg] at hbd
      have hbdeq : bd0 = bd := Except.ok.inj (hbd0.symm.trans hbd)
      rw [hpd, ← hbdeq]
  | none => exact absurd h (by simp [patientSection])
  | bool b' => exact absurd h (by simp [patientSection])
  | int n => exact absurd h (by simp [patientSection])
  | str s => exact absurd h (by simp [patientSection])
  | list xs => exact absurd h (by simp [patientSection])

/-- With no Patient in the categorized lists, the summary builder never
succeeds: every run ends in an exception (an unbound `age_str` when the
other blocks went through, or those blocks' own exception). -/
theorem processPatientInfo_noPatient {today : Date} {pi : CategorizedResources}
    (h : pi.patient = []) : (processPatientInfo today pi).isOk = false := by
  cases hx : processPatientInfo today pi with
  | error e => rfl
  | ok r =>
    exfalso
    obtain ⟨info, out⟩ := r
    unfold processPatientInfo at hx
    rw [h] at hx
    obtain ⟨patOpt, hpat, hx⟩ := bind_ok hx
    have hnone := pure_ok hpat
    subst hnone
    obtain ⟨al, hal, hx⟩ := bind_ok hx
    obtain ⟨s_al, alOut⟩ := al
    obtain ⟨immOut, him, hx⟩ := bind_ok hx
    obtain ⟨obsOut, hob, hx⟩ := bind_ok hx
    obtain ⟨cond, hcond, hx⟩ := bind_ok hx
    obtain ⟨s_cond, condOut⟩ := cond
    obtain ⟨procOut, hproc, hx⟩ := bind_ok hx
    obtain ⟨cpOut, hcp, hx⟩ := bind_ok hx
    exact absurd hx (by simp)

/-! Claim theorems. -/

/-- C1 (counterexample): for a concept whose first coding entry has neither
display nor code, the decoder does NOT return null — it scans on and returns
the second entry's display, while the claim's first-entry-only policy
returns null. -/
theorem codeable_concept_later_coding_cex :
    extract_codeable_concept
        (.dict [("coding", .list [.dict [], .dict [("display", .str "Later")]])]) true =
      .str "Later" ∧
    claimCodeableConcept
        (.dict [("coding", .list [.dict [], .dict [("display", .str "Later")]])]) = .none ∧
    PyVal.str "Later" ≠ PyVal.none :=
  ⟨rfl, rfl, fun hcon => PyVal.noConfusion hcon⟩

/-- C1 (amended): under the default policy the decoder returns the concept's
free-text field if truthy; otherwise it scans the whole coding array in
order and returns the first entry's display-else-code that is truthy;
otherwise null. -/
theorem codeable_concept_default_policy_amended :
    ∀ cc : PyVal, extract_codeable_concept cc true =
      (if ¬ cc.truthy ∨ ¬ cc.isDict then .none
       else if (dGet cc "text").truthy then dGet cc "text"
       else
         match dGetD cc "coding" (.list []) with
         | .list xs => (xs.findSome? codingEntryValue).getD .none
         | _ => .none) := by
  intro cc
  simp only [extract_codeable_concept]
  by_cases hguard : ¬ cc.truthy ∨ ¬ cc.isDict
  · rw [if_pos hguard, if_pos hguard]
  · rw [if_neg hguard, if_neg hguard]
    by_cases htext : (dGet cc "text").truthy
    · rw [if_pos ⟨trivial, htext⟩, if_pos htext]
    · rw [if_neg (fun hq => htext hq.2), if_neg htext]
      cases hcod : dGetD cc "coding" (.list []) with
      | list xs =>
        simp only [codingScanTop, codingScan_eq]
        cases hres : xs.findSome? codingEntryValue with
        | some v => simp
        | none => simp
      | none => simp [codingScanTop]
      | bool b => simp [codingScanTop]
      | int n => simp [codingScanTop]
      | str s => simp [codingScanTop]
      | dict kvs => simp [codingScanTop]

/-- C2: the decoders are not total — `extract_dosage` raises
`AttributeError` when a dosage's timing `code` is a string, and
`extract_identifiers` raises `IndexError` when an identifier's `type` has an
empty `coding` list, instead of returning the structurally-typed empty
result. -/
theorem decoder_totality_code_bug :
    extract_dosage (.list [.dict [("timing", .dict [("code", .str "BID")])]]) =
      .error (.attributeError "object has no attribute get: text") ∧
    extract_identifiers (.list [.dict [("type", .dict [("coding", .list [])])]]) =
      .error (.indexError "list index out of range") :=
  ⟨rfl, rfl⟩

/-- C3 (counterexample): a Condition with both an onset age and an onset
period populates the age branch (the code checks age before period), and a
Procedure with both a performed string and a performed age populates the
string branch (the code checks string before age) — both contradicting the
claim's datetime, period, age, string priority order. -/
theorem onset_priority_order_cex :
    conditionOnsetData exOnsetRes = [("onset_age", .str "5 years")] ∧
    claimConditionOnsetData exOnsetRes =
      [("onset_period_start", .str "2020-01-01"), ("onset_period_end", .str "2021-01-01")] ∧
    (conditionOnsetData exOnsetRes).map Prod.fst ≠
      (claimConditionOnsetData exOnsetRes).map Prod.fst ∧
    procedurePerformedData exPerformedRes = [("performed_string", .str "childhood")] ∧
    claimProcedurePerformedData exPerformedRes = [("performed_age", .str "9 years")] ∧
    (procedurePerformedData exPerformedRes).map Prod.fst ≠
      (claimProcedurePerformedData exPerformedRes).map Prod.fst :=
  ⟨rfl, rfl, by decide, rfl, rfl, by decide⟩

/-- C3 (amended): first-present wins and exactly one branch populates its
flat sub-fields, but the fixed priority order is per-resource: Condition
checks datetime, age, period, string; Procedure checks datetime, period,
string, age. -/
theorem onset_priority_first_present_amended :
    ∀ r r' : List (String × PyVal),
      ((conditionOnsetData r).map Prod.fst =
        (if hasKey r "onsetDateTime" then ["onset_datetime"]
         else if hasKey r "onsetAge" then ["onset_age"]
         else if hasKey r "onsetPeriod" then ["onset_period_start", "onset_period_end"]
         else if hasKey r "onsetString" then ["onset_string"]
         else [])) ∧
      ((procedurePerformedData r').map Prod.fst =
        (if hasKey r' "performedDateTime" then ["performed_datetime"]
         else if hasKey r' "performedPeriod" then
           ["performed_period_start", "performed_period_end"]
         else if hasKey r' "performedString" then ["performed_string"]
         else if hasKey r' "performedAge" then ["performed_age"]
         else [])) := by
  intro r r'
  constructor
  · simp only [conditionOnsetData]
    split_ifs <;> simp
  · simp only [procedurePerformedData]
    split_ifs <;> simp

/-- C4 (counterexample): a bundle with a patient (age and address) but no
conditions and no allergies yields the description
`". .  Age: 74.  Address: 12 Main Street"` — the empty fragments are not
omitted and their ". " separators remain, unlike the claim's join. -/
theorem description_fragments_cex :
    Except.map Prod.fst
        (processPatientInfo ⟨2024, 7, 1⟩ ⟨[exPatientResFull], [], [], [], [], [], []⟩) =
      .ok ". .  Age: 74.  Address: 12 Main Street" ∧
    specJoinFragments ["", "", " Age: 74", " Address: 12 Main Street"] =
      " Age: 74.  Address: 12 Main Street" ∧
    (". .  Age: 74.  Address: 12 Main Street" : String) ≠
      " Age: 74.  Address: 12 Main Street" :=
  ⟨rfl, rfl, by decide⟩

/-- C4 (amended): the description is the four fragments in the claimed fixed
order, but joined with ". " unconditionally — a fragment whose source data
is absent contributes an empty string and its separators remain. -/
theorem description_concatenation_amended :
    ∀ (today : Date) (pi : CategorizedResources) (p : PyVal) (rest : List PyVal)
      (pd : PatientDict) (age_str address_str al_str cond_str : String)
      (alOut condOut : List (String × OutEntry)) (info : String)
      (out : List (String × OutEntry)),
      pi.patient = p :: rest →
      patientSection today p = .ok (pd, age_str, address_str) →
      processAllergies pi.allergyIntolerance = .ok (al_str, alOut) →
      processConditions pi.condition = .ok (cond_str, condOut) →
      processPatientInfo today pi = .ok (info, out) →
      info = cond_str ++ ". " ++ al_str ++ ". " ++ age_str ++ ". " ++ address_str := by
  intro today pi p rest pd age_str address_str al_str cond_str alOut condOut info out
    hp hps hal hcond h
  unfold processPatientInfo at h
  rw [hp] at h
  obtain ⟨patOpt, hpat, h⟩ := bind_ok h
  obtain ⟨trip, htrip, hpat⟩ := bind_ok hpat
  have hsome := pure_ok hpat
  subst hsome
  rw [hps] at htrip
  have htr : (pd, age_str, address_str) = trip := Except.ok.inj htrip
  subst htr
  obtain ⟨al, hal2, h⟩ := bind_ok h
  rw [hal] at hal2
  have hale : (al_str, alOut) = al := Except.ok.inj hal2
  subst hale
  obtain ⟨immOut, him, h⟩ := bind_ok h
  obtain ⟨obsOut, hob, h⟩ := bind_ok h
  obtain ⟨cond, hcond2, h⟩ := bind_ok h
  rw [hcond] at hcond2
  have hce : (cond_str, condOut) = cond := Except.ok.inj hcond2
  subst hce
  obtain ⟨procOut, hprc, h⟩ := bind_ok h
  obtain ⟨cpOut, hcp, h⟩ := bind_ok h
  have he := pure_ok h
  exact (congrArg Prod.fst he).symm

/-- C4 (amended, witness): the patient-only bundle instantiates the
concatenation formula with empty condition and allergy fragments. -/
theorem description_concatenation_amended_witness :
    (". .  Age: 74.  Address: 12 Main Street" : String) =
      "" ++ ". " ++ "" ++ ". " ++ " Age: 74" ++ ". " ++ " Address: 12 Main Street" :=
  description_concatenation_amended ⟨2024, 7, 1⟩
    ⟨[exPatientResFull], [], [], [], [], [], []⟩ exPatientResFull []
    exPatientDictFull " Age: 74" " Address: 12 Main Street" "" "" [] []
    ". .  Age: 74.  Address: 12 Main Street"
    [("Patient", OutEntry.patient exPatientDictFull)]
    rfl rfl rfl rfl rfl

/-- C5 (counterexample): on per-type lists with no Patient resource the
summary builder fails with an unbound-local error on `age_str` — not a
required-field-missing validation failure. -/
theorem missing_patient_error_kind_cex :
    processPatientInfo ⟨2024, 7, 1⟩ ⟨[], [], [], [], [], [], []⟩ =
      .error (.unboundLocal "age_str") ∧
    isValidationError (.unboundLocal "age_str") = false :=
  ⟨rfl, rfl⟩

/-- C5 (amended): with no Patient resource the summary builder never
succeeds — it raises an unbound-local error on the age fragment (or a prior
block's own exception), not a required-field-missing validation error. -/
theorem missing_patient_always_fails_amended :
    ∀ (today : Date) (pi : CategorizedResources), pi.patient = [] →
      (processPatientInfo today pi).isOk = false :=
  fun _ _ h => processPatientInfo_noPatient h

/-- C5 (amended, witness). -/
theorem missing_patient_always_fails_witness :
    (processPatientInfo ⟨2024, 7, 1⟩ ⟨[], [], [], [], [], [], []⟩).isOk = false :=
  missing_patient_always_fails_amended ⟨2024, 7, 1⟩ ⟨[], [], [], [], [], [], []⟩ rfl

/-- C6 (counterexample): when the embedding request for a non-blank query
fails, the search fails with the caught error — it does not run the
filter-only, unranked query the claim predicts. -/
theorem embedding_failure_fails_search_cex :
    execute_search (fun _ => .error "embedding service unavailable") "diabetes" 15
        ⟨"Any", "Any", (0, 120)⟩ = .failed "embedding service unavailable" ∧
    SearchOutcome.failed "embedding service unavailable" ≠
      claimDegradedOutcome 15 ⟨"Any", "Any", (0, 120)⟩ :=
  ⟨rfl, by decide⟩

/-- C6 (amended): an embedding failure for a non-blank query makes the whole
search fail with that error; the filter-only, unranked query runs only when
the query text is blank. -/
theorem embedding_failure_outcome_amended :
    (∀ (svc : String → Except String String) (q : String) (n : Int) (f : Filters)
       (e : String), svc q = .error e → pyStrip q ≠ "" →
       execute_search svc q n f = .failed e) ∧
    (∀ (svc : String → Except String String) (q : String) (n : Int) (f : Filters),
       pyStrip q = "" → execute_search svc q n f =
         .ran (build_hybrid_query Option.none n f.gender f.deceased f.age_range).1
              (build_hybrid_query Option.none n f.gender f.deceased f.age_range).2) := by
  constructor
  · intro svc q n f e hsvc htrim
    simp only [execute_search]
    rw [if_neg htrim, hsvc]
  · intro svc q n f htrim
    simp only [execute_search]
    rw [if_pos htrim]

/-- C6 (amended, witness). -/
theorem embedding_failure_outcome_witness :
    execute_search (fun _ => .error "down") "diabetes" 15 ⟨"Any", "Any", (0, 120)⟩ =
      .failed "down" :=
  embedding_failure_outcome_amended.1 (fun _ => .error "down") "diabetes" 15
    ⟨"Any", "Any", (0, 120)⟩ "down" rfl (by decide)

/-- C7: the stored current age follows the claimed formula
`today.year - birth_year - (1 if (today.month, today.day) <
(birth_month, birth_day) else 0)`; in particular birth date 1950-06-15 on
reference date 2024-07-01 gives 74. -/
theorem current_age_formula :
    (∀ (today : Date) (p : PyVal) (pd : PatientDict) (a b : String) (bd : Date),
       patientSection today p = .ok (pd, a, b) →
       parseDate (dGet p "birth_date") = .ok bd →
       pd.current_age = (today.year : Int) - (bd.year : Int) -
         (if today.month < bd.month ∨ (today.month = bd.month ∧ today.day < bd.day)
          then 1 else 0)) ∧
    ageOn ⟨2024, 7, 1⟩ ⟨1950, 6, 15⟩ = 74 := by
  constructor
  · intro today p pd a b bd hps hbd
    have h := (patientSection_inv hps).2 bd hbd
    rw [h]
    rfl
  · decide

/-- C7 (witness). -/
theorem current_age_formula_witness : exPatientDict.current_age = 74 := by
  have h := current_age_formula.1 ⟨2024, 7, 1⟩ exPatientRes exPatientDict " Age: 74" ""
    ⟨1950, 6, 15⟩ rfl rfl
  rw [h]
  decide

set_option maxRecDepth 400000 in
/-- C8: with no similarity target and the default unrestricted filters, the
built query is the base projection with a constant-0 similarity column and
`TOP ?` cap, no filter predicate, no vector term and no ordering clause, and
the only parameter is the requested cap. -/
theorem hybrid_query_default_unrestricted :
    ∀ n : Int,
      build_hybrid_query Option.none n "Any" "Any" (0, 120) =
        (baseSelect ++ simZero ++ fromWhere, [SqlParam.pInt n]) ∧
      strContains (baseSelect ++ simZero ++ fromWhere) "SELECT TOP ?" = true ∧
      strContains (baseSelect ++ simZero ++ fromWhere) ",0 as similarity" = true ∧
      strContains (baseSelect ++ simZero ++ fromWhere) "VECTOR_DOT_PRODUCT" = false ∧
      strContains (baseSelect ++ simZero ++ fromWhere) " AND " = false ∧
      strContains (baseSelect ++ simZero ++ fromWhere) "ORDER BY" = false := by
  intro n
  exact ⟨rfl, rfl, rfl, rfl, rfl, rfl⟩

/-- C9: for every document whose analysis succeeded, the emitted trace
starts with the Patient row insert followed immediately by the
business-key → surrogate-key resolution, and every later event is a
child-table insert carrying the resolved surrogate key as its `patient_id`
foreign key. -/
theorem etl_parent_before_children :
    ∀ (today : Date) (pi : CategorizedResources) (info : String)
      (out : List (String × OutEntry)) (tE : String → Bool) (pid : PyVal)
      (vec : String) (k : Int) (evs : List Event),
      (∀ t, tE t = true) →
      processPatientInfo today pi = .ok (info, out) →
      extract_data_doc tE pid info vec k out = .ok evs →
      ∃ pd cs, evs = Event.insertRow "Patient" (patientRowValues pid info vec pd) ::
          Event.resolveKey "Patient" "patient_id" pid k :: cs ∧
        ∀ e ∈ cs, ∃ t vals, e = Event.insertRow t vals ∧ t ≠ "Patient" ∧
          vals.head? = some ("patient_id", PyVal.int k) := by
  intro today pi info out tE pid vec k evs hT hproc htr
  obtain ⟨pd, rest, hout, hrest⟩ := processPatientInfo_shape hproc
  subst hout
  unfold extract_data_doc at htr
  simp only [extractDataGo, resourceTypeOf] at htr
  rw [if_neg (by decide)] at htr
  rw [hT "Patient"] at htr
  rw [if_neg (by simp)] at htr
  rw [if_pos trivial] at htr
  obtain ⟨tail, htail, htr⟩ := bind_ok htr
  have he := pure_ok htr
  subst he
  refine ⟨pd, tail, rfl, ?_⟩
  intro e he
  exact extractDataGo_children hT rest hrest tail htail e he

/-- C9 (witness): a one-patient document instantiates the trace shape. -/
theorem etl_parent_before_children_witness :
    ∃ pd cs,
      [Event.insertRow "Patient"
         (patientRowValues (.str "p1") ". .  Age: 74. " "vec" exPatientDict),
       Event.resolveKey "Patient" "patient_id" (.str "p1") 7] =
        Event.insertRow "Patient" (patientRowValues (.str "p1") ". .  Age: 74. " "vec" pd) ::
        Event.resolveKey "Patient" "patient_id" (.str "p1") 7 :: cs ∧
      ∀ e ∈ cs, ∃ t vals, e = Event.insertRow t vals ∧ t ≠ "Patient" ∧
        vals.head? = some ("patient_id", PyVal.int 7) :=
  etl_parent_before_children ⟨2024, 7, 1⟩ ⟨[exPatientRes], [], [], [], [], [], []⟩
    ". .  Age: 74. " [("Patient", OutEntry.patient exPatientDict)] (fun _ => true)
    (.str "p1") "vec" 7
    [Event.insertRow "Patient"
       (patientRowValues (.str "p1") ". .  Age: 74. " "vec" exPatientDict),
     Event.resolveKey "Patient" "patient_id" (.str "p1") 7]
    (fun _ => rfl) rfl rfl

/-- C10: in every Patient row the ETL inserts, the `deceased` flag equals
the presence of the `deceased_datetime` value — true exactly when the
datetime is non-null. -/
theorem deceased_flag_iff_datetime :
    ∀ (today : Date) (p : PyVal) (pd : PatientDict) (a b : String) (pid : PyVal)
      (info vec : String),
      patientSection today p = .ok (pd, a, b) →
      lookup (patientRowValues pid info vec pd) "deceased" =
        some (.bool pd.deceased_datetime.isSome) ∧
      (lookup (patientRowValues pid info vec pd) "deceased" = some (.bool true) ↔
        pd.deceased_datetime ≠ Option.none) := by
  intro today p pd a b pid info vec hps
  obtain ⟨⟨v, hv⟩, _⟩ := patientSection_inv hps
  have hlk : lookup (patientRowValues pid info vec pd) "deceased" =
      some (.bool (optStrToPy pd.deceased_datetime).truthy) := rfl
  cases hd : pd.deceased_datetime with
  | none =>
    constructor
    · rw [hlk, hd]
      rfl
    · rw [hlk, hd]
      simp [optStrToPy, PyVal.truthy]
  | some s =>
    have hs : s ≠ "" := iso_to_sql_ok_some (by rw [hd] at hv; exact hv)
    constructor
    · rw [hlk, hd]
      simp [optStrToPy, PyVal.truthy, hs]
    · rw [hlk, hd]
      simp [optStrToPy, PyVal.truthy, hs]

/-- C10 (witness): a deceased patient's row carries flag true. -/
theorem deceased_flag_iff_datetime_witness :
    lookup (patientRowValues (.str "p1") "i" "v" exPatientDictFull) "deceased" =
      some (.bool exPatientDictFull.deceased_datetime.isSome) ∧
    (lookup (patientRowValues (.str "p1") "i" "v" exPatientDictFull) "deceased" =
        some (.bool true) ↔ exPatientDictFull.deceased_datetime ≠ Option.none) :=
  deceased_flag_iff_datetime ⟨2024, 7, 1⟩ exPatientResFull exPatientDictFull
    " Age: 74" " Address: 12 Main Street" (.str "p1") "i" "v" rfl

end FhirSpec
